import Mathlib

/-!
Verification of the Twilio ↔ OpenAI realtime audio relay in `src/main.py`.

The file embeds, as executable Lean definitions, the parts of the program the
claims are about:

* Python's `base64.b64encode` / `base64.b64decode` (default non-strict mode of
  CPython's `binascii.a2b_base64`), used by `send_to_twilio` to validate audio
  deltas;
* the inbound relay loop `receive_from_twilio` (Twilio → OpenAI): per received
  text frame, `json.loads`, forward `media` payloads as
  `input_audio_buffer.append` when the OpenAI socket is open, latch
  `stream_sid` on `start` events; a `WebSocketDisconnect` handler that closes
  the OpenAI socket if it is still open;
* the outbound relay loop `send_to_twilio` (OpenAI → Twilio): per received
  message, `json.loads`, and for `response.audio.delta` messages with a truthy
  `delta`, decode-then-re-encode the payload and send a Twilio `media` event
  tagged with the current `stream_sid`; decode failures are caught per message,
  every other exception ends the loop via the outer handler.

Inbound frames are modelled after parsing: the constructors of `TwilioMsg`
cover well-formed `start`/`media`/other events plus the two malformed shapes
the claims mention (non-JSON text, and a `media` event missing its
`media`/`payload` field). Likewise `AIMsg` covers well-formed messages, a
non-JSON message, and a JSON message lacking its `type` field.
-/

/-- The standard base64 alphabet (RFC 4648), as used by Python's `base64`
module. -/
def b64chars : List Char :=
  "ABCDEFGHIJKLMNOPQRSTUVWXYZabcdefghijklmnopqrstuvwxyz0123456789+/".data

/-- Character of a 6-bit value in the base64 alphabet. -/
def b64char (k : Nat) : Char := b64chars.getD k 'A'

/-- Decoding table: the 6-bit value of a base64 alphabet character, `none` for
any other character (CPython's `table_a2b_base64` entries, `-1` as `none`). -/
def b64val (c : Char) : Option Nat :=
  if 'A' ≤ c ∧ c ≤ 'Z' then some (c.toNat - 65)
  else if 'a' ≤ c ∧ c ≤ 'z' then some (c.toNat - 97 + 26)
  else if '0' ≤ c ∧ c ≤ '9' then some (c.toNat - 48 + 52)
  else if c = '+' then some 62
  else if c = '/' then some 63
  else none

/-- Model of `base64.b64encode` on a byte list, producing the character list: bytes are
taken three at a time, a final group of one or two bytes is padded with `=`. -/
def b64encodeGroups : List Nat → List Char
  | [] => []
  | [a] => [b64char (a / 4), b64char (a % 4 * 16), '=', '=']
  | [a, b] => [b64char (a / 4), b64char (a % 4 * 16 + b / 16), b64char (b % 16 * 4), '=']
  | a :: b :: c :: rest =>
      b64char (a / 4) :: b64char (a % 4 * 16 + b / 16) ::
      b64char (b % 16 * 4 + c / 64) :: b64char (c % 64) :: b64encodeGroups rest

/-- Model of `base64.b64encode(bs).decode('utf-8')`: the base64 text of a byte list. -/
def b64encode (bs : List Nat) : String := String.mk (b64encodeGroups bs)

/-- The character loop of CPython's `binascii.a2b_base64` in its default
non-strict mode, which is what `base64.b64decode` calls. State: `qp` is
`quad_pos` (position inside the current 4-character group), `left` the
accumulated leftover bits, `pads` the number of padding characters seen at
`quad_pos ≥ 2` since the last valid data character (CPython executes
`pads = 0` on every valid data character, so an interrupted pad run does not
carry over). Characters outside the alphabet are skipped; `=` finishes
decoding once the current group has accumulated enough pads to be complete; a
leftover partial group at the end of input is an error (`none`). -/
def b64decodeLoop : List Char → Nat → Nat → Nat → Option (List Nat)
  | [], 0, _, _ => some []
  | [], _ + 1, _, _ => none
  | c :: cs, qp, left, pads =>
    if c = '=' then
      if 2 ≤ qp ∧ 4 ≤ qp + (pads + 1) then some []
      else b64decodeLoop cs qp left (if 2 ≤ qp then pads + 1 else pads)
    else
      match b64val c with
      | none => b64decodeLoop cs qp left pads
      | some d =>
        match qp with
        | 0 => b64decodeLoop cs 1 d 0
        | 1 => (b64decodeLoop cs 2 (d % 16) 0).map (fun bs => (left * 4 + d / 16) :: bs)
        | 2 => (b64decodeLoop cs 3 (d % 4) 0).map (fun bs => (left * 16 + d / 4) :: bs)
        | _ => (b64decodeLoop cs 0 0 0).map (fun bs => (left * 64 + d) :: bs)

/-- Model of `base64.b64decode` on a `str` argument: the string is first encoded as
ASCII (a character ≥ 128 raises `ValueError`), then fed to
`binascii.a2b_base64`; `none` is any raised exception. -/
def b64decode (s : String) : Option (List Nat) :=
  if s.data.all (fun c => c.toNat < 128) then b64decodeLoop s.data 0 0 0 else none

/-- The payload validation in `send_to_twilio`, line 132 of `src/main.py`:
`base64.b64encode(base64.b64decode(delta)).decode('utf-8')`; `none` when the
decode raises. -/
def reencodeAudio (delta : String) : Option String := (b64decode delta).map b64encode

/-- A text frame from the Twilio websocket, as seen by the body of
`receive_from_twilio` after `json.loads` and the field accesses it performs. -/
inductive TwilioMsg
  /-- `{"event": "start", "start": {"streamSid": sid}}` -/
  | start (sid : String)
  /-- `{"event": "media", "media": {"payload": payload}}` -/
  | media (payload : String)
  /-- valid JSON with any other `"event"` value -/
  | other (ev : String)
  /-- a text frame that is not valid JSON: `json.loads` raises `ValueError` -/
  | invalidJson
  /-- `{"event": "media", ...}` missing the `media`/`payload` field:
  `data['media']['payload']` raises `KeyError` when evaluated -/
  | mediaNoPayload
deriving DecidableEq

/-- The Python exceptions the relay loops can raise (other than
`WebSocketDisconnect`). -/
inductive PyError
  | valueError
  | keyError
deriving DecidableEq

/-- Result of the inbound relay loop: the `input_audio_buffer.append` payloads
sent to OpenAI in order, the final value of `stream_sid`, and the uncaught
exception that ended the loop, if any. -/
structure RecvResult where
  appends : List String
  sid : Option String
  err : Option PyError
deriving DecidableEq

/-- The loop of `receive_from_twilio` (lines 97–113 of `src/main.py`). Each
inbound frame is paired with the value of `openai_ws.open` at the moment the
frame is handled. `media` with the OpenAI socket open sends an append with the
payload unchanged; `media` with it closed falls through both branches and is
dropped; `start` unconditionally assigns `stream_sid`; other events are
ignored; a frame that is not JSON raises before the event dispatch, and a
`media` frame missing its payload raises only when the OpenAI socket is open
(the payload access is guarded by `and openai_ws.open`). An exception ends the
loop: later frames are not processed. -/
def receive_from_twilio (sid : Option String) : List (TwilioMsg × Bool) → RecvResult
  | [] => ⟨[], sid, none⟩
  | (m, aiOpen) :: rest =>
    match m with
    | .media p =>
      if aiOpen then
        let r := receive_from_twilio sid rest
        ⟨p :: r.appends, r.sid, r.err⟩
      else receive_from_twilio sid rest
    | .start i => receive_from_twilio (some i) rest
    | .other _ => receive_from_twilio sid rest
    | .invalidJson => ⟨[], sid, some .valueError⟩
    | .mediaNoPayload =>
      if aiOpen then ⟨[], sid, some .keyError⟩
      else receive_from_twilio sid rest

/-- A message from the OpenAI websocket, as seen by the body of
`send_to_twilio` after `json.loads` and the `type` access. -/
inductive AIMsg
  /-- valid JSON object with `"type": type`; `delta` is `response.get('delta')` -/
  | msg (type : String) (delta : Option String)
  /-- a message that is not valid JSON: `json.loads` raises `ValueError` -/
  | invalidJson
  /-- valid JSON lacking a `"type"` key: `response['type']` raises `KeyError` -/
  | noType (delta : Option String)
deriving DecidableEq

/-- The side effects of the relay on its two peers that the claims talk
about. -/
inductive RelayAction
  /-- `websocket.send_json({"event": "media", "streamSid": sid,
  "media": {"payload": payload}})` back to Twilio -/
  | sendTwilio (sid : Option String) (payload : String)
  /-- `openai_ws.close()` -/
  | closeAI
  /-- closing the Twilio websocket (never performed by either loop) -/
  | closeTwilio
deriving DecidableEq

/-- One iteration of the loop of `send_to_twilio` (lines 121–142 of
`src/main.py`): message types in `LOG_EVENT_TYPES` and `session.updated` only
print; a `response.audio.delta` with a truthy `delta` (present and non-empty)
has its payload decoded and re-encoded inside an inner `try`, so a decode
failure drops just that message (`ok none`), while a successful decode sends a
`media` event tagged with the current `stream_sid`; a non-JSON message or one
lacking `type` raises out of the iteration. -/
def sendStep (sid : Option String) : AIMsg → Except PyError (Option RelayAction)
  | .invalidJson => .error .valueError
  | .noType _ => .error .keyError
  | .msg t d =>
    if t = "response.audio.delta" ∧ d.getD "" ≠ "" then
      match reencodeAudio (d.getD "") with
      | some payload => .ok (some (.sendTwilio sid payload))
      | none => .ok none
    else .ok none

/-- Result of the outbound relay loop: the actions performed in order, and the
exception (caught by the loop's outer `except`, line 143) that ended it, if
any. -/
structure SendResult where
  actions : List RelayAction
  err : Option PyError
deriving DecidableEq

/-- The loop of `send_to_twilio` (lines 119–144 of `src/main.py`): messages are
handled in order; an exception not caught inside the iteration ends the entire
loop (it is caught by the outer `except Exception`, which only prints). -/
def send_to_twilio (sid : Option String) : List AIMsg → SendResult
  | [] => ⟨[], none⟩
  | m :: rest =>
    match sendStep sid m with
    | .error e => ⟨[], some e⟩
    | .ok none => send_to_twilio sid rest
    | .ok (some a) =>
      let r := send_to_twilio sid rest
      ⟨a :: r.actions, r.err⟩

/-- State of the OpenAI websocket as observed via `openai_ws.open`. -/
inductive ConnState
  | opened
  | closed
deriving DecidableEq

/-- The `WebSocketDisconnect` handler of `receive_from_twilio` (lines 114–117
of `src/main.py`): `if openai_ws.open: await openai_ws.close()`. Returns the
connection state afterwards and the number of `close()` calls issued. -/
def on_twilio_disconnect : ConnState → ConnState × Nat
  | .opened => (.closed, 1)
  | .closed => (.closed, 0)

/-- A frame shape that passes `receive_from_twilio`'s parsing and field
accesses without raising: one of `start`, `media`, `other`. -/
def TwilioMsg.wellFormed : TwilioMsg → Bool
  | .invalidJson => false
  | .mediaNoPayload => false
  | _ => true

/-- Payloads of the `media` frames of an inbound sequence, in order. -/
def mediaPayloads : List (TwilioMsg × Bool) → List String
  | [] => []
  | (.media p, _) :: rest => p :: mediaPayloads rest
  | _ :: rest => mediaPayloads rest

/-- Identifier carried by the last `start` frame of an inbound sequence, if
any. -/
def lastStartSid : List (TwilioMsg × Bool) → Option String
  | [] => none
  | (.start i, _) :: rest =>
    match lastStartSid rest with
    | some j => some j
    | none => some i
  | _ :: rest => lastStartSid rest

/-! ### Round trip of the base64 model -/

lemma b64val_b64char {k : Nat} (h : k < 64) : b64val (b64char k) = some k := by
  have H : ∀ k : Fin 64, b64val (b64char k.1) = some k.1 := by decide
  exact H ⟨k, h⟩

lemma b64char_ne_pad (k : Nat) : b64char k ≠ '=' := by
  by_cases h : k < 64
  · have H : ∀ k : Fin 64, b64char k.1 ≠ '=' := by decide
    exact H ⟨k, h⟩
  · show b64chars.getD k 'A' ≠ '='
    rw [List.getD_eq_default]
    · decide
    · have : b64chars.length = 64 := by decide
      omega

lemma b64char_toNat_lt (k : Nat) : (b64char k).toNat < 128 := by
  by_cases h : k < 64
  · have H : ∀ k : Fin 64, (b64char k.1).toNat < 128 := by decide
    exact H ⟨k, h⟩
  · show (b64chars.getD k 'A').toNat < 128
    rw [List.getD_eq_default]
    · decide
    · have : b64chars.length = 64 := by decide
      omega

/-- Decoding a full 4-character group emits three bytes and returns to
`quad_pos = 0` with `pads` reset to `0` (each data character resets it). -/
lemma b64decodeLoop_quad {w x y z : Nat} (hw : w < 64) (hx : x < 64) (hy : y < 64)
    (hz : z < 64) (cs : List Char) (pads : Nat) :
    b64decodeLoop (b64char w :: b64char x :: b64char y :: b64char z :: cs) 0 0 pads
      = (b64decodeLoop cs 0 0 0).map
          (fun bs => (w * 4 + x / 16) :: (x % 16 * 16 + y / 4) :: (y % 4 * 64 + z) :: bs) := by
  simp only [b64decodeLoop, if_neg (b64char_ne_pad w), if_neg (b64char_ne_pad x),
    if_neg (b64char_ne_pad y), if_neg (b64char_ne_pad z), b64val_b64char hw,
    b64val_b64char hx, b64val_b64char hy, b64val_b64char hz, Option.map_map]
  rfl

/-- Decoding the final group `[c1, c2, '=', '=']` of a 1-byte tail. -/
lemma b64decodeLoop_tail1 {a : Nat} (ha : a < 256) :
    b64decodeLoop [b64char (a / 4), b64char (a % 4 * 16), '=', '='] 0 0 0 = some [a] := by
  have h1 : a / 4 < 64 := by omega
  have h2 : a % 4 * 16 < 64 := by omega
  simp only [b64decodeLoop, if_neg (b64char_ne_pad (a / 4)), if_neg (b64char_ne_pad (a % 4 * 16)),
    b64val_b64char h1, b64val_b64char h2]
  norm_num
  omega

/-- Decoding the final group `[c1, c2, c3, '=']` of a 2-byte tail. -/
lemma b64decodeLoop_tail2 {a b : Nat} (ha : a < 256) (hb : b < 256) :
    b64decodeLoop [b64char (a / 4), b64char (a % 4 * 16 + b / 16), b64char (b % 16 * 4), '='] 0 0 0
      = some [a, b] := by
  have h1 : a / 4 < 64 := by omega
  have h2 : a % 4 * 16 + b / 16 < 64 := by omega
  have h3 : b % 16 * 4 < 64 := by omega
  simp only [b64decodeLoop, if_neg (b64char_ne_pad (a / 4)),
    if_neg (b64char_ne_pad (a % 4 * 16 + b / 16)), if_neg (b64char_ne_pad (b % 16 * 4)),
    b64val_b64char h1, b64val_b64char h2, b64val_b64char h3]
  norm_num
  constructor
  · omega
  · omega

lemma b64decodeLoop_encodeGroups (bs : List Nat) (h : ∀ x ∈ bs, x < 256) :
    b64decodeLoop (b64encodeGroups bs) 0 0 0 = some bs := by
  induction bs using b64encodeGroups.induct with
  | case1 => rfl
  | case2 a =>
    exact b64decodeLoop_tail1 (h a (by simp))
  | case3 a b =>
    exact b64decodeLoop_tail2 (h a (by simp)) (h b (by simp))
  | case4 a b c rest ih =>
    have ha : a < 256 := h a (by simp)
    have hb : b < 256 := h b (by simp)
    have hc : c < 256 := h c (by simp)
    have h1 : a / 4 < 64 := by omega
    have h2 : a % 4 * 16 + b / 16 < 64 := by omega
    have h3 : b % 16 * 4 + c / 64 < 64 := by omega
    have h4 : c % 64 < 64 := by omega
    rw [b64encodeGroups, b64decodeLoop_quad h1 h2 h3 h4,
      ih (fun x hx => h x (by simp [hx]))]
    have e1 : a / 4 * 4 + (a % 4 * 16 + b / 16) / 16 = a := by omega
    have e2 : (a % 4 * 16 + b / 16) % 16 * 16 + (b % 16 * 4 + c / 64) / 4 = b := by omega
    have e3 : (b % 16 * 4 + c / 64) % 4 * 64 + c % 64 = c := by omega
    simp [e1, e2, e3]

lemma b64encodeGroups_ascii (bs : List Nat) : ∀ c ∈ b64encodeGroups bs, c.toNat < 128 := by
  induction bs using b64encodeGroups.induct with
  | case1 => exact fun c hc => absurd hc (List.not_mem_nil c)
  | case2 a =>
    simp only [b64encodeGroups, List.mem_cons, List.not_mem_nil, or_false]
    rintro c (rfl | rfl | rfl | rfl) <;> first | exact b64char_toNat_lt _ | decide
  | case3 a b =>
    simp only [b64encodeGroups, List.mem_cons, List.not_mem_nil, or_false]
    rintro c (rfl | rfl | rfl | rfl) <;> first | exact b64char_toNat_lt _ | decide
  | case4 a b c rest ih =>
    simp only [b64encodeGroups, List.mem_cons]
    rintro d (rfl | rfl | rfl | rfl | hd)
    · exact b64char_toNat_lt _
    · exact b64char_toNat_lt _
    · exact b64char_toNat_lt _
    · exact b64char_toNat_lt _
    · exact ih d hd

/-- Python's `b64decode` inverts `b64encode` on byte lists. -/
lemma b64decode_b64encode (bs : List Nat) (h : ∀ x ∈ bs, x < 256) :
    b64decode (b64encode bs) = some bs := by
  unfold b64decode b64encode
  rw [if_pos]
  · exact b64decodeLoop_encodeGroups bs h
  · rw [List.all_eq_true]
    exact fun c hc => decide_eq_true (b64encodeGroups_ascii bs c hc)

/-- The decode-then-re-encode step of `send_to_twilio` is the identity on
canonical base64 strings (those produced by `b64encode`). -/
lemma reencodeAudio_encode (bs : List Nat) (h : ∀ x ∈ bs, x < 256) :
    reencodeAudio (b64encode bs) = some (b64encode bs) := by
  rw [reencodeAudio, b64decode_b64encode bs h]
  rfl

-- Sanity checks of the base64 model against CPython behaviour.
example : b64encode [0] = "AA==" := by decide
example : b64encode [255, 255, 255] = "////" := by decide
example : b64decode "AA==" = some [0] := by decide
example : b64decode "A" = none := by decide
example : b64decode "QQ=" = none := by decide
example : b64decode "QR==" = some [65] := by decide
example : b64decode "====" = some [] := by decide
example : reencodeAudio "AA==" = some "AA==" := by decide
example : b64decode "TWFu" = some [77, 97, 110] := by decide
example : b64decode "QQ=QQQQ=" = none := by decide
example : b64decode "QQ==QQQQ" = some [65] := by decide

/-! ### Claims: outbound relay (`send_to_twilio`) -/

/-- C9: for every valid base64 payload — a payload that is the base64
encoding of some byte list — decoding it and re-encoding the result, as
`send_to_twilio` does before forwarding an `audioDelta`, yields the original
payload. -/
theorem claim_C9_roundtrip_identity (s : String) (bs : List Nat)
    (hbytes : ∀ x ∈ bs, x < 256) (hs : b64encode bs = s) :
    reencodeAudio s = some s := by
  subst hs
  exact reencodeAudio_encode bs hbytes

theorem claim_C9_witness :
    b64encode [77, 97, 110] = "TWFu" ∧ reencodeAudio "TWFu" = some "TWFu" :=
  ⟨by decide, claim_C9_roundtrip_identity "TWFu" [77, 97, 110] (by decide) (by decide)⟩

/-- C5: an `audioDelta` whose payload is empty (a `delta` field equal to
`""`, or absent, both falsy for `response.get('delta')`) produces no
telephony-bound media event: `send_to_twilio` handles the remaining messages
exactly as if the event had not occurred. -/
theorem claim_C5_empty_delta_not_forwarded (sid : Option String) (rest : List AIMsg) :
    send_to_twilio sid (.msg "response.audio.delta" (some "") :: rest)
        = send_to_twilio sid rest
      ∧ send_to_twilio sid (.msg "response.audio.delta" none :: rest)
        = send_to_twilio sid rest := by
  constructor <;> simp [send_to_twilio, sendStep]

/-- C3: an `audioDelta` whose payload fails base64 decoding is dropped
without terminating the outbound relay: no media event is emitted for it and
the rest of the sequence is processed exactly as if it had not occurred, so a
subsequent valid `audioDelta` is still forwarded normally. -/
theorem claim_C3_malformed_delta_skipped (sid : Option String) (d : String)
    (rest : List AIMsg) (hbad : reencodeAudio d = none) :
    send_to_twilio sid (.msg "response.audio.delta" (some d) :: rest)
      = send_to_twilio sid rest := by
  have hne : d ≠ "" := by
    intro h
    rw [h] at hbad
    exact Option.noConfusion hbad
  simp [send_to_twilio, sendStep, hne, hbad]

theorem claim_C3_witness :
    reencodeAudio "QQ=QQQQ=" = none ∧
      send_to_twilio (some "S")
          [.msg "response.audio.delta" (some "QQ=QQQQ="), .msg "response.audio.delta" (some "TWFu")]
        = send_to_twilio (some "S") [.msg "response.audio.delta" (some "TWFu")] :=
  ⟨by decide, claim_C3_malformed_delta_skipped (some "S") "QQ=QQQQ=" _ (by decide)⟩

/-- C8: a valid non-empty `audioDelta` arriving before any `start` event has
latched `stream_sid` is still forwarded: the emitted media event carries the
unset (`none`, i.e. JSON `null`) stream identifier instead of being
suppressed or raising. -/
theorem claim_C8_delta_before_start (d : String) (bs : List Nat) (rest : List AIMsg)
    (hbytes : ∀ x ∈ bs, x < 256) (hd : b64encode bs = d) (hne : d ≠ "") :
    send_to_twilio none (.msg "response.audio.delta" (some d) :: rest)
      = ⟨.sendTwilio none d :: (send_to_twilio none rest).actions,
         (send_to_twilio none rest).err⟩ := by
  have hre : reencodeAudio d = some d := by
    subst hd
    exact reencodeAudio_encode bs hbytes
  simp [send_to_twilio, sendStep, hne, hre]

theorem claim_C8_witness :
    send_to_twilio none [.msg "response.audio.delta" (some "TWFu")]
      = ⟨[.sendTwilio none "TWFu"], none⟩ :=
  claim_C8_delta_before_start "TWFu" [77, 97, 110] [] (by decide) (by decide) (by decide)

/-- C1: end-to-end behaviour on the inbound sequence
`[start "A", media p1, media p2]` with the AI connection open throughout, and
the AI sequence `[sessionUpdated, audioDelta d1, audioDelta d2]` with `d1`,
`d2` valid non-empty base64: the AI-bound output is exactly
`[append p1, append p2]` in order, the stream id latches to `"A"`, and the
telephony-bound output is exactly `[media "A" d1, media "A" d2]` in order. -/
theorem claim_C1_end_to_end (p1 p2 d1 d2 : String) (b1 b2 : List Nat)
    (h1 : ∀ x ∈ b1, x < 256) (e1 : b64encode b1 = d1) (ne1 : d1 ≠ "")
    (h2 : ∀ x ∈ b2, x < 256) (e2 : b64encode b2 = d2) (ne2 : d2 ≠ "") :
    receive_from_twilio none [(.start "A", true), (.media p1, true), (.media p2, true)]
        = ⟨[p1, p2], some "A", none⟩
      ∧ send_to_twilio (some "A")
            [.msg "session.updated" none,
             .msg "response.audio.delta" (some d1),
             .msg "response.audio.delta" (some d2)]
          = ⟨[.sendTwilio (some "A") d1, .sendTwilio (some "A") d2], none⟩ := by
  have r1 : reencodeAudio d1 = some d1 := by
    subst e1
    exact reencodeAudio_encode b1 h1
  have r2 : reencodeAudio d2 = some d2 := by
    subst e2
    exact reencodeAudio_encode b2 h2
  constructor
  · rfl
  · simp [send_to_twilio, sendStep, ne1, ne2, r1, r2]

theorem claim_C1_witness :
    receive_from_twilio none [(.start "A", true), (.media "pA", true), (.media "pB", true)]
        = ⟨["pA", "pB"], some "A", none⟩
      ∧ send_to_twilio (some "A")
            [.msg "session.updated" none,
             .msg "response.audio.delta" (some "AA=="),
             .msg "response.audio.delta" (some "////")]
          = ⟨[.sendTwilio (some "A") "AA==", .sendTwilio (some "A") "////"], none⟩ :=
  claim_C1_end_to_end "pA" "pB" "AA==" "////" [0] [255, 255, 255]
    (by decide) (by decide) (by decide) (by decide) (by decide) (by decide)

/-! ### Claims: inbound relay (`receive_from_twilio`) -/

/-- C4: with the AI connection open throughout, the inbound relay sends
exactly one append per `media` frame, payload unchanged, in receipt order —
including `media` frames arriving before any `start` — and raises nothing. -/
theorem claim_C4_append_per_media (sid : Option String) (evs : List (TwilioMsg × Bool))
    (hwf : ∀ e ∈ evs, e.1.wellFormed = true) (hopen : ∀ e ∈ evs, e.2 = true) :
    (receive_from_twilio sid evs).appends = mediaPayloads evs
      ∧ (receive_from_twilio sid evs).err = none := by
  induction evs generalizing sid with
  | nil => exact ⟨rfl, rfl⟩
  | cons e rest ih =>
    obtain ⟨m, flag⟩ := e
    have hflag : flag = true := hopen _ (List.mem_cons_self _ _)
    subst hflag
    have hwf' : ∀ e ∈ rest, e.1.wellFormed = true := fun e he => hwf e (by simp [he])
    have hopen' : ∀ e ∈ rest, e.2 = true := fun e he => hopen e (by simp [he])
    cases m with
    | start i => simpa [receive_from_twilio, mediaPayloads] using ih (some i) hwf' hopen'
    | media p => simpa [receive_from_twilio, mediaPayloads] using ih sid hwf' hopen'
    | other ev => simpa [receive_from_twilio, mediaPayloads] using ih sid hwf' hopen'
    | invalidJson => exact absurd (hwf _ (List.mem_cons_self _ _)) (by simp [TwilioMsg.wellFormed])
    | mediaNoPayload => exact absurd (hwf _ (List.mem_cons_self _ _)) (by simp [TwilioMsg.wellFormed])

theorem claim_C4_witness :
    (receive_from_twilio none
        [(.media "p0", true), (.start "S", true), (.media "p1", true),
         (.other "mark", true), (.media "p2", true)]).appends = ["p0", "p1", "p2"] :=
  (claim_C4_append_per_media none _ (by decide) (by decide)).1

/-- C2 counterexample: the claim says a second `start` with a different
identifier leaves the latched value unchanged (first write wins), but on
`[start "A", start "B"]` the code's final `stream_sid` is `"B"`, not the
first identifier `"A"`. -/
theorem claim_C2_counterexample :
    (receive_from_twilio none [(.start "A", true), (.start "B", true)]).sid = some "B"
      ∧ (some "B" : Option String) ≠ some "A" := by
  exact ⟨rfl, by decide⟩

/-- C2 (amended): `stream_sid` is last-write-wins, not write-once: every
`start` frame observed assigns it, so a later `start` with a different
identifier overwrites the earlier value; the final value is the identifier of
the last `start` frame (or the initial value when no `start` occurs). -/
theorem claim_C2_last_start_wins (sid : Option String) (evs : List (TwilioMsg × Bool))
    (hwf : ∀ e ∈ evs, e.1.wellFormed = true) :
    (receive_from_twilio sid evs).sid
      = match lastStartSid evs with
        | some i => some i
        | none => sid := by
  induction evs generalizing sid with
  | nil => rfl
  | cons e rest ih =>
    obtain ⟨m, flag⟩ := e
    have hwf' : ∀ e ∈ rest, e.1.wellFormed = true := fun e he => hwf e (by simp [he])
    cases m with
    | start i =>
      have h := ih (some i) hwf'
      simp only [receive_from_twilio, lastStartSid]
      rw [h]
      cases lastStartSid rest <;> rfl
    | media p =>
      have h := ih sid hwf'
      cases flag <;> simpa [receive_from_twilio, lastStartSid] using h
    | other ev =>
      have h := ih sid hwf'
      simpa [receive_from_twilio, lastStartSid] using h
    | invalidJson => exact absurd (hwf _ (List.mem_cons_self _ _)) (by simp [TwilioMsg.wellFormed])
    | mediaNoPayload => exact absurd (hwf _ (List.mem_cons_self _ _)) (by simp [TwilioMsg.wellFormed])

theorem claim_C2_witness :
    (receive_from_twilio none
        [(.start "A", true), (.media "p", true), (.start "B", false)]).sid = some "B" :=
  claim_C2_last_start_wins none _ (by decide)

lemma receive_appends_nil_of_closed (sid : Option String) (evs : List (TwilioMsg × Bool))
    (h : ∀ e ∈ evs, e.2 = false) : (receive_from_twilio sid evs).appends = [] := by
  induction evs generalizing sid with
  | nil => rfl
  | cons e rest ih =>
    obtain ⟨m, flag⟩ := e
    have hflag : flag = false := h _ (List.mem_cons_self _ _)
    subst hflag
    have h' : ∀ e ∈ rest, e.2 = false := fun e he => h e (by simp [he])
    cases m with
    | start i => simpa [receive_from_twilio] using ih (some i) h'
    | media p => simpa [receive_from_twilio] using ih sid h'
    | other ev => simpa [receive_from_twilio] using ih sid h'
    | invalidJson => rfl
    | mediaNoPayload => simpa [receive_from_twilio] using ih sid h'

/-- C6: a `media` frame arriving while the AI connection is not open is
silently dropped — no error, no buffering, the rest of the sequence is
processed as if the frame had not occurred — and no append is ever sent while
the AI connection is closed: a sequence handled entirely with the connection
closed produces no appends at all. -/
theorem claim_C6_media_dropped_when_closed (sid : Option String) :
    (∀ p rest, receive_from_twilio sid ((.media p, false) :: rest)
        = receive_from_twilio sid rest)
      ∧ ∀ evs : List (TwilioMsg × Bool), (∀ e ∈ evs, e.2 = false) →
          (receive_from_twilio sid evs).appends = [] :=
  ⟨fun _ _ => rfl, fun evs h => receive_appends_nil_of_closed sid evs h⟩

theorem claim_C6_witness :
    (receive_from_twilio none
        [(.media "p0", false), (.start "S", false), (.media "p1", false)]).appends = [] :=
  (claim_C6_media_dropped_when_closed none).2 _ (by decide)

/-! ### Claims: shutdown and parse failures -/

lemma sendStep_ok_some (sid : Option String) (m : AIMsg) (a : RelayAction)
    (h : sendStep sid m = .ok (some a)) : ∃ p, a = .sendTwilio sid p := by
  cases m with
  | invalidJson => exact absurd h (by simp [sendStep])
  | noType d => exact absurd h (by simp [sendStep])
  | msg t d =>
    rw [sendStep] at h
    by_cases hc : t = "response.audio.delta" ∧ d.getD "" ≠ ""
    · rw [if_pos hc] at h
      cases hre : reencodeAudio (d.getD "") with
      | none => rw [hre] at h; exact absurd h (by simp)
      | some p =>
        rw [hre] at h
        simp only [Except.ok.injEq, Option.some.injEq] at h
        exact ⟨p, h.symm⟩
    · rw [if_neg hc] at h
      exact absurd h (by simp)

/-- C7: shutdown propagation is asymmetric. The telephony disconnect handler
closes the AI connection exactly once: it issues one `close()` when the
connection is open and none when it is already closed, so running it a second
time is a no-op; the outbound relay, for its part, performs only sends toward
the telephony connection — it closes neither connection when the AI side ends
or errors. -/
theorem claim_C7_asymmetric_shutdown :
    on_twilio_disconnect .opened = (.closed, 1)
      ∧ (∀ c, (on_twilio_disconnect c).2 ≤ 1)
      ∧ (∀ c, on_twilio_disconnect (on_twilio_disconnect c).1 = ((on_twilio_disconnect c).1, 0))
      ∧ ∀ (sid : Option String) (msgs : List AIMsg) (a : RelayAction),
          a ∈ (send_to_twilio sid msgs).actions → ∃ p, a = .sendTwilio sid p := by
  refine ⟨rfl, fun c => ?_, fun c => ?_, fun sid msgs => ?_⟩
  · cases c <;> simp [on_twilio_disconnect]
  · cases c <;> rfl
  · induction msgs with
    | nil =>
      intro a ha
      simp [send_to_twilio] at ha
    | cons m rest ih =>
      intro a ha
      rw [send_to_twilio] at ha
      cases hs : sendStep sid m with
      | error e =>
        rw [hs] at ha
        simp at ha
      | ok oa =>
        cases oa with
        | none =>
          rw [hs] at ha
          exact ih a ha
        | some act =>
          rw [hs] at ha
          simp only [List.mem_cons] at ha
          cases ha with
          | inl h =>
            obtain ⟨p, hp⟩ := sendStep_ok_some sid m act hs
            exact ⟨p, h.trans hp⟩
          | inr h => exact ih a h

theorem claim_C7_witness :
    ∃ p, RelayAction.sendTwilio (some "S") "TWFu" = RelayAction.sendTwilio (some "S") p :=
  claim_C7_asymmetric_shutdown.2.2.2 (some "S") [.msg "response.audio.delta" (some "TWFu")]
    (.sendTwilio (some "S") "TWFu") (by decide)

/-- C10: a message that fails structural parsing ends its relay loop instead
of being skipped per message. Inbound: a non-JSON text frame, or a `media`
frame missing its payload while the AI connection is open, ends the loop with
an uncaught exception and the following `media` frame is never forwarded.
Outbound: a non-JSON message, or one lacking a `type` field, ends the entire
loop and the following valid `audioDelta` is never forwarded — whereas a
base64 decode failure inside the audio-delta branch is skipped per message
and the following valid `audioDelta` is still forwarded. -/
theorem claim_C10_parse_failure_ends_loop :
    receive_from_twilio none [(.invalidJson, true), (.media "TWFu", true)]
        = ⟨[], none, some .valueError⟩
      ∧ receive_from_twilio none [(.mediaNoPayload, true), (.media "TWFu", true)]
        = ⟨[], none, some .keyError⟩
      ∧ send_to_twilio (some "S") [.invalidJson, .msg "response.audio.delta" (some "TWFu")]
        = ⟨[], some .valueError⟩
      ∧ send_to_twilio (some "S")
            [.noType (some "TWFu"), .msg "response.audio.delta" (some "TWFu")]
        = ⟨[], some .keyError⟩
      ∧ send_to_twilio (some "S")
            [.msg "response.audio.delta" (some "A"), .msg "response.audio.delta" (some "TWFu")]
        = ⟨[.sendTwilio (some "S") "TWFu"], none⟩ := by
  refine ⟨rfl, rfl, rfl, rfl, by decide⟩
